import Mathlib

/-!
Shallow embedding of the AirSense monitoring server (src/server3.py and
src/server2.py) for checking the natural-language specification.

Modelling conventions:
* Sensor values and thresholds are Python floats; they are embedded as `ℚ`.
  Every comparison performed by the code (`>`, `<`, `>=`) is order-theoretic,
  so the rational embedding is faithful for the properties treated here.
* Wall-clock instants (`datetime.now()`) are embedded as `Nat` seconds.
  Python's `(t1 - t0).seconds` is the within-day seconds component of the
  timedelta, i.e. `(t1 - t0) % 86400` for `t0 ≤ t1`; see `tdSeconds`.
* Python dicts used as mutable maps (`last_alert_time_*`, the threshold dict
  in the POST handler) are embedded as insertion-ordered association lists
  with `dictLookup` / `dictSet`.
* Message strings keep the source wording; the emoji prefixes and the
  fixed-point numeric formatting (`:.2f`) are abstracted by `fmtQ`
  (no claim depends on the exact rendering of a number or on the emoji).
* `server3.py` lines 401/500/610 contain an unresolved git merge conflict.
  The embedding follows the second (incoming) conflict branch, which is the
  variant the specification describes (tiered eCO2 classification); the
  temperature and humidity blocks are identical in both branches.
* Network effects (Telegram, MariaDB, SocketIO) are recorded in the result
  value instead of being performed; `send_telegram_alert` catches every
  error internally, which is modelled by a delivery flag that only selects
  which log line is produced.
-/

namespace AirSense

/-- The per-room threshold dictionary `DEFAULT_THRESHOLDS` of server3.py
(lines 58-70), viewed as a record over its ten fixed keys. -/
structure Thresholds where
  tvoc_good : ℚ
  tvoc_normal : ℚ
  tvoc_high : ℚ
  temp_min : ℚ
  temp_max : ℚ
  humidity_min : ℚ
  humidity_max : ℚ
  eco2_min : ℚ
  eco2_normal : ℚ
  eco2_high : ℚ
deriving DecidableEq, Repr

/-- server3.py lines 58-70. -/
def DEFAULT_THRESHOLDS : Thresholds :=
  { tvoc_good := 65, tvoc_normal := 220, tvoc_high := 660
    temp_min := 18, temp_max := 35
    humidity_min := 30, humidity_max := 70
    eco2_min := 400, eco2_normal := 1000, eco2_high := 2000 }

/-- One entry of the `alerts` list built by `check_thresholds_and_alert`.
The `level` key is present on the per-metric alerts but absent on the
`humidity_abnormal` entry, hence an `Option`. -/
structure Alert where
  type : String
  message : String
  severity : String
  level : Option String
deriving DecidableEq, Repr

/-- Python `d[k]` lookup on an insertion-ordered dict, `none` when absent. -/
def dictLookup {α : Type} (m : List (String × α)) (k : String) : Option α :=
  match m with
  | [] => none
  | (k₀, v₀) :: rest => if k₀ = k then some v₀ else dictLookup rest k

/-- Python `d[k] = v` on an insertion-ordered dict: overwrite in place,
append at the end when the key is new. -/
def dictSet {α : Type} (m : List (String × α)) (k : String) (v : α) :
    List (String × α) :=
  match m with
  | [] => [(k, v)]
  | (k₀, v₀) :: rest =>
      if k₀ = k then (k₀, v) :: rest else (k₀, v₀) :: dictSet rest k v

/-- Python `(now - t0).seconds` for instants measured in integer seconds
with `t0 ≤ now`: the timedelta's within-day seconds component. This is NOT
the total elapsed time; it discards whole days. -/
def tdSeconds (now t0 : Nat) : Nat := (now - t0) % 86400

/-- The cooldown test of server3.py (e.g. lines 359-361):
`alert_key not in last_alert_time or (current_time - last_alert_time[alert_key]).seconds > window`. -/
def cooldownOk (last : List (String × Nat)) (key : String) (now : Nat)
    (window : Nat) : Bool :=
  match dictLookup last key with
  | none => true
  | some t0 => decide (tdSeconds now t0 > window)

/-- Numeric rendering inside message strings; server3.py uses f-string
formatting such as `:.2f`, abstracted here (no claim depends on it). -/
def fmtQ (q : ℚ) : String := toString q

/-- TVOC classification, server3.py lines 342-357: returns
`(alert_key, alert_severity, alert_message)`. -/
def classifyTvoc (th : Thresholds) (tvoc : ℚ) : String × String × Option String :=
  if tvoc > th.tvoc_high then
    ("tvoc_too_high", "danger",
      some ("TVOC too high: " ++ fmtQ tvoc ++ " ppb (Critical level > " ++
        fmtQ th.tvoc_high ++ " ppb)"))
  else if tvoc > th.tvoc_normal then
    ("tvoc_high", "warning", some ("TVOC high: " ++ fmtQ tvoc ++ " ppb"))
  else if tvoc > th.tvoc_good then
    ("tvoc_normal", "info", none)
  else
    ("tvoc_good", "success", none)

/-- The `level` field recomputed inline at server3.py lines 371-379. -/
def tvocLevel (th : Thresholds) (tvoc : ℚ) : String :=
  if tvoc > th.tvoc_high then "too_high"
  else if tvoc > th.tvoc_normal then "high"
  else if tvoc > th.tvoc_good then "normal"
  else "good"

/-- Temperature classification, server3.py lines 383-400: returns
`(temp_status, alert_key, alert_severity, alert_message)`. -/
def classifyTemp (th : Thresholds) (temperature : ℚ) :
    String × String × String × Option String :=
  if temperature > th.temp_max then
    ("high", "temp_high", "warning",
      some ("Temperature high: " ++ fmtQ temperature ++ "°C (Maximum: " ++
        fmtQ th.temp_max ++ "°C)"))
  else if temperature < th.temp_min then
    ("low", "temp_low", "warning",
      some ("Temperature low: " ++ fmtQ temperature ++ "°C (Minimum: " ++
        fmtQ th.temp_min ++ "°C)"))
  else
    ("normal", "temp_normal", "success", none)

/-- Humidity classification, server3.py lines 519-537: returns
`(humidity_status, alert_key, alert_severity, alert_message)`. -/
def classifyHumidity (th : Thresholds) (humidity : ℚ) :
    String × String × String × Option String :=
  if humidity > th.humidity_max then
    ("high", "humidity_high", "warning",
      some ("Humidity high: " ++ fmtQ humidity ++ "% (Maximum: " ++
        fmtQ th.humidity_max ++ "%)"))
  else if humidity < th.humidity_min then
    ("low", "humidity_low", "warning",
      some ("Humidity low: " ++ fmtQ humidity ++ "% (Minimum: " ++
        fmtQ th.humidity_min ++ "%)"))
  else
    ("normal", "humidity_normal", "success", none)

/-- eCO2 classification, server3.py lines 571-593 (incoming conflict
branch): returns `(eco2_status, alert_key, alert_severity, alert_message)`.
Note the third branch tests `eco2 >= thresholds["eco2_min"]`, not a strict
comparison. -/
def classifyEco2 (th : Thresholds) (eco2 : ℚ) :
    String × String × String × Option String :=
  if eco2 > th.eco2_high then
    ("too_high", "eco2_too_high", "danger",
      some ("CO2 level too high: " ++ fmtQ eco2 ++ " ppm (Critical level > " ++
        fmtQ th.eco2_high ++ " ppm)"))
  else if eco2 > th.eco2_normal then
    ("high", "eco2_high", "warning",
      some ("CO2 level high: " ++ fmtQ eco2 ++ " ppm"))
  else if eco2 ≥ th.eco2_min then
    ("normal", "eco2_normal", "success", none)
  else
    ("low", "eco2_low", "warning",
      some ("CO2 level too low: " ++ fmtQ eco2 ++ " ppm (Minimum: " ++
        fmtQ th.eco2_min ++ " ppm)"))

/-- The `aqi_descriptions` dict lookup with default, server3.py lines
612-623. The source spells the category for value 3 `"Morderate"`. -/
def aqi_descriptions (aqi : Int) : String :=
  if aqi = 1 then "Excellent"
  else if aqi = 2 then "Good"
  else if aqi = 3 then "Morderate"
  else if aqi = 4 then "Poor"
  else if aqi = 5 then "Unhealthy"
  else "Undefined"

/-- The fixed recommendation suffix, server3.py line 629. -/
def recommendations : String :=
  "\nRecommendation: Open windows or increase ventilation!"

/-- The log line produced by `send_telegram_alert` (server3.py lines
312-327): the function catches every exception and inspects the HTTP status
only to choose a log line, so delivery failure is invisible to the caller. -/
def send_telegram_alert (deliveryOk : Bool) (room : String) : String :=
  if deliveryOk then "Telegram message sent successfully for " ++ room
  else "Telegram error for " ++ room

/-- Everything `check_thresholds_and_alert` computes or emits:
the returned `alerts` list, the `alert_messages` buffer (including the
trailing AQI line), the `should_send_alert` flag, the updated
`last_alert_time` dict, the combined Telegram text (when sent), the number
of Telegram send attempts, the Telegram log line(s), and the messages
persisted to `alert_history`. -/
structure EvalResult where
  alerts : List Alert
  alert_messages : List String
  should_send_alert : Bool
  last_alert_time : List (String × Nat)
  notification : Option String
  sendAttempts : Nat
  sendLog : List String
  logged : List String
deriving DecidableEq, Repr

/-- State accumulated by the four metric blocks of
`check_thresholds_and_alert` (server3.py lines 337-609), before the AQI
line and the combined-notification section. -/
structure MetricsAcc where
  alerts : List Alert
  alert_messages : List String
  should_send_alert : Bool
  last_alert_time : List (String × Nat)
deriving DecidableEq, Repr

/-- The four per-metric blocks of server3.py `check_thresholds_and_alert`
(lines 337-609, resolving the merge conflict to the incoming branch),
executed in source order: TVOC, temperature, humidity (with its
unconditional trailing appends), eCO2. -/
def metricBlocks (th : Thresholds) (last0 : List (String × Nat)) (now : Nat)
    (tvoc temperature humidity eco2 : ℚ) : MetricsAcc :=
  -- TVOC block, lines 342-381
  let tv := classifyTvoc th tvoc
  let tvocFires := tv.2.2.isSome && cooldownOk last0 tv.1 now 300
  let last1 := if tvocFires then dictSet last0 tv.1 now else last0
  let msgs1 : List String := if tvocFires then [tv.2.2.getD ""] else []
  let alerts1 : List Alert :=
    if tvocFires then
      [{ type := tv.1, message := "TVOC Level: " ++ fmtQ tvoc ++ " ppb",
         severity := tv.2.1, level := some (tvocLevel th tvoc) }]
    else []
  -- temperature block, lines 383-400 and 502-516
  let te := classifyTemp th temperature
  let tempFires := te.2.2.2.isSome && cooldownOk last1 te.2.1 now 600
  let last2 := if tempFires then dictSet last1 te.2.1 now else last1
  let msgs2 := msgs1 ++ (if tempFires then [te.2.2.2.getD ""] else [])
  let alerts2 := alerts1 ++
    (if tempFires then
      [{ type := te.2.1, message := "Temperature: " ++ fmtQ temperature ++ "°C",
         severity := te.2.2.1, level := some te.1 }]
    else [])
  -- humidity block, lines 518-569: after the guarded block the source
  -- appends a duplicate "too low" line inside the if, a "too high" line in
  -- the else, and an unconditional humidity_abnormal alert.
  let hu := classifyHumidity th humidity
  let humFires := hu.2.2.2.isSome && cooldownOk last2 hu.2.1 now 600
  let last3 := if humFires then dictSet last2 hu.2.1 now else last2
  let msgs3 := msgs2 ++
    (if humFires then
      [hu.2.2.2.getD "",
       "Humidity too low: " ++ fmtQ humidity ++ "% (Minimum: " ++
         fmtQ th.humidity_min ++ "%)"]
    else
      ["Humidity too high: " ++ fmtQ humidity ++ "% (Maximum: " ++
         fmtQ th.humidity_max ++ "%)"])
  let alerts3 := alerts2 ++
    (if humFires then
      [{ type := hu.2.1, message := "Humidity: " ++ fmtQ humidity ++ "%",
         severity := hu.2.2.1, level := some hu.1 }]
    else []) ++
    [{ type := "humidity_abnormal",
       message := "Abnormal humidity: " ++ fmtQ humidity ++ "%",
       severity := "warning", level := none }]
  -- eCO2 block, lines 571-609 (incoming conflict branch)
  let ec := classifyEco2 th eco2
  let ecoFires := ec.2.2.2.isSome && cooldownOk last3 ec.2.1 now 600
  let last4 := if ecoFires then dictSet last3 ec.2.1 now else last3
  let msgs4 := msgs3 ++ (if ecoFires then [ec.2.2.2.getD ""] else [])
  let alerts4 := alerts3 ++
    (if ecoFires then
      [{ type := ec.2.1, message := "CO2 Level: " ++ fmtQ eco2 ++ " ppm",
         severity := ec.2.2.1, level := some ec.1 }]
    else [])
  { alerts := alerts4
    alert_messages := msgs4
    should_send_alert := tvocFires || tempFires || humFires || ecoFires
    last_alert_time := last4 }

/-- server3.py `check_thresholds_and_alert` (lines 330-636): the metric
blocks, then the AQI line (lines 612-624) appended unconditionally to the
message buffer, then the combined-notification section (lines 626-634):
one Telegram send and one `alert_history` row per buffered message except
the trailing AQI line, all guarded by `should_send_alert`. The room's
thresholds dict, the room's `last_alert_time` dict, the `aqi` field of the
room's freshly updated `current_data`, and the current time are passed
explicitly; the delivery flag feeds the modelled `send_telegram_alert`. -/
def check_thresholds_and_alert (room : String) (th : Thresholds)
    (last0 : List (String × Nat)) (aqi : Int) (now : Nat) (deliveryOk : Bool)
    (tvoc temperature humidity eco2 : ℚ) : EvalResult :=
  let m := metricBlocks th last0 now tvoc temperature humidity eco2
  let msgs5 := m.alert_messages ++ ["AQI Level: " ++ aqi_descriptions aqi]
  { alerts := m.alerts
    alert_messages := msgs5
    should_send_alert := m.should_send_alert
    last_alert_time := m.last_alert_time
    notification :=
      if m.should_send_alert then
        some (String.intercalate "\n" msgs5 ++ recommendations)
      else none
    sendAttempts := if m.should_send_alert then 1 else 0
    sendLog :=
      if m.should_send_alert then [send_telegram_alert deliveryOk room] else []
    logged := if m.should_send_alert then msgs5.dropLast else [] }

/-- Rank of the severity labels used by the classifiers, ordered
success < info < warning < danger. -/
def sevRank : String → Nat
  | "success" => 0
  | "info" => 1
  | "warning" => 2
  | "danger" => 3
  | _ => 4

/-- A decoded JSON value in an MQTT payload. `nonNumeric` stands for any
value on which Python `float(...)` (resp. `int(...)`) raises — e.g. a
non-numeric string, a list, or null; numeric strings are subsumed under
`num`, as Python coerces them. -/
inductive PyVal where
  | num (q : ℚ)
  | nonNumeric (tag : String)
deriving DecidableEq, Repr

/-- Python `float(v)`: succeeds exactly on (coercible-to-)numeric values. -/
def pyFloat : PyVal → Option ℚ
  | .num q => some q
  | .nonNumeric _ => none

/-- Python `int(v)`: numeric values truncate toward zero
(`Int.tdiv` is truncated division). -/
def pyInt : PyVal → Option Int
  | .num q => some (q.num.tdiv q.den)
  | .nonNumeric _ => none

/-- Whether a payload value is numeric (so that `float`/`int` succeed). -/
def PyVal.isNum : PyVal → Bool
  | .num _ => true
  | .nonNumeric _ => false

/-- A decoded MQTT JSON object, as an insertion-ordered dict. -/
abbrev Payload := List (String × PyVal)

/-- Direct semantics of the field decode on an all-numeric payload: the
lowercase key wins, then the capitalized key, then the default. -/
def qGetD (data : Payload) (k K : String) (dflt : ℚ) : ℚ :=
  match dictLookup data k with
  | some (.num q) => q
  | some (.nonNumeric _) => dflt
  | none =>
      match dictLookup data K with
      | some (.num q) => q
      | some (.nonNumeric _) => dflt
      | none => dflt

/-- Direct semantics of the AQI decode on an all-numeric payload
(`int` truncates toward zero). -/
def zGetD (data : Payload) (k K : String) (dflt : Int) : Int :=
  match dictLookup data k with
  | some (.num q) => q.num.tdiv q.den
  | some (.nonNumeric _) => dflt
  | none =>
      match dictLookup data K with
      | some (.num q) => q.num.tdiv q.den
      | some (.nonNumeric _) => dflt
      | none => dflt

/-- The field decode of server3.py lines 658-661:
`float(data.get(k, data.get(K, 0)))`, where a failing coercion raises. -/
def decodeFloatField (data : Payload) (k K : String) : Option ℚ :=
  pyFloat (((dictLookup data k).getD ((dictLookup data K).getD (.num 0))))

/-- The AQI decode of server3.py line 662:
`int(data.get("aqi", data.get("AQI", 1)))`. -/
def decodeAqi (data : Payload) : Option Int :=
  pyInt (((dictLookup data "aqi").getD ((dictLookup data "AQI").getD (.num 1))))

/-- The `current_data` record of a room after an update (server3.py lines
73-89 and 664-674). -/
structure Reading where
  tvoc : ℚ
  temperature : ℚ
  humidity : ℚ
  eco2 : ℚ
  aqi : Int
  timestamp : Nat
deriving DecidableEq, Repr

/-- All five fields decoded in server3.py lines 658-662; the first failing
coercion raises and aborts `on_message` via its outer try/except. -/
def decodeReading (data : Payload) (now : Nat) : Option Reading :=
  match decodeFloatField data "tvoc" "TVOC",
        decodeFloatField data "temperature" "Temperature",
        decodeFloatField data "humidity" "Humidity",
        decodeFloatField data "eco2" "eCO2",
        decodeAqi data with
  | some tv, some te, some hu, some ec, some aq =>
      some { tvoc := tv, temperature := te, humidity := hu, eco2 := ec,
             aqi := aq, timestamp := now }
  | _, _, _, _, _ => none

/-- The reading a numeric payload decodes to: per-field lookup of the
lowercase then capitalized spelling, defaulting to 0 (1 for aqi). -/
def numReading (data : Payload) (now : Nat) : Reading :=
  { tvoc := qGetD data "tvoc" "TVOC" 0
    temperature := qGetD data "temperature" "Temperature" 0
    humidity := qGetD data "humidity" "Humidity" 0
    eco2 := qGetD data "eco2" "eCO2" 0
    aqi := zGetD data "aqi" "AQI" 1
    timestamp := now }

/-- The two fixed rooms, selected from the MQTT topic (server3.py line 653). -/
inductive Room where
  | bedroom
  | workingroom
deriving DecidableEq, Repr

def roomName : Room → String
  | .bedroom => "bedroom"
  | .workingroom => "workingroom"

/-- The per-room module-level state of server3.py: `current_data_*`,
`thresholds_*`, `last_alert_time_*` (lines 73-94). -/
structure RoomState where
  current : Reading
  thresholds : Thresholds
  last_alert_time : List (String × Nat)
deriving DecidableEq, Repr

/-- The whole module-level mutable state touched by ingestion. -/
structure ServerState where
  bedroom : RoomState
  workingroom : RoomState
deriving DecidableEq, Repr

/-- Initial module-level state (server3.py lines 73-94): zero readings, AQI
1, default thresholds, empty cooldown dicts. The initial timestamp is the
process start instant, taken as 0. -/
def initialServerState : ServerState :=
  { bedroom :=
      { current := { tvoc := 0, temperature := 0, humidity := 0, eco2 := 0,
                     aqi := 1, timestamp := 0 },
        thresholds := DEFAULT_THRESHOLDS, last_alert_time := [] }
    workingroom :=
      { current := { tvoc := 0, temperature := 0, humidity := 0, eco2 := 0,
                     aqi := 1, timestamp := 0 },
        thresholds := DEFAULT_THRESHOLDS, last_alert_time := [] } }

/-- The external effects of one successful `on_message` run: the row given
to `db.insert_sensor_data`, the SocketIO broadcast payload (reading plus
alerts, on the room's namespace), and the Telegram log lines. -/
structure IngestEffects where
  dbInsert : String × Reading
  broadcast : String × Reading × List Alert
  sendLog : List String
deriving DecidableEq, Repr

/-- server3.py `on_message` (lines 649-703). Decode failure is caught by
the outer try/except: the state is left untouched and no effect happens.
On success the room's `current_data` is replaced, the reading is persisted,
`check_thresholds_and_alert` runs (reading `aqi` from the just-updated
`current_data`), and the reading plus alerts are broadcast. -/
def on_message (s : ServerState) (room : Room) (data : Payload) (now : Nat)
    (deliveryOk : Bool) : ServerState × Option IngestEffects :=
  match decodeReading data now with
  | none => (s, none)
  | some rd =>
      let rs := match room with
        | .bedroom => s.bedroom
        | .workingroom => s.workingroom
      let r := check_thresholds_and_alert (roomName room) rs.thresholds
        rs.last_alert_time rd.aqi now deliveryOk
        rd.tvoc rd.temperature rd.humidity rd.eco2
      let rs2 : RoomState :=
        { current := rd, thresholds := rs.thresholds,
          last_alert_time := r.last_alert_time }
      let s2 := match room with
        | .bedroom => { s with bedroom := rs2 }
        | .workingroom => { s with workingroom := rs2 }
      (s2, some
        { dbInsert := (roomName room, rd)
          broadcast := (roomName room, rd, r.alerts)
          sendLog := r.sendLog })

/-- The threshold dict of one room as the POST handler sees it: the raw
insertion-ordered dict (the handler mutates it key by key). -/
abbrev ThresholdDict := List (String × ℚ)

/-- The `DEFAULT_THRESHOLDS` dict of server3.py lines 59-70 as the literal
insertion-ordered association list. -/
def default_threshold_dict : ThresholdDict :=
  [("tvoc_good", 65), ("tvoc_normal", 220), ("tvoc_high", 660),
   ("temp_min", 18), ("temp_max", 35),
   ("humidity_min", 30), ("humidity_max", 70),
   ("eco2_min", 400), ("eco2_normal", 1000), ("eco2_high", 2000)]

/-- The `required_keys` list of server3.py lines 1860-1868. -/
def required_keys : List String :=
  ["tvoc_max", "temp_min", "temp_max", "humidity_min", "humidity_max",
   "eco2_min", "eco2_max"]

/-- Total dict read used after the write loop of the POST handler: every
required key is guaranteed present there, so the Python `thresholds[key]`
lookup cannot raise; absence is mapped to 0 only to make the read total. -/
def dGet (m : ThresholdDict) (k : String) : ℚ := (dictLookup m k).getD 0

/-- The persisted `thresholds` row (server3.py lines 148-164, 233-290):
its seven value columns. -/
structure DbThresholdRow where
  tvoc_max : ℚ
  temp_min : ℚ
  temp_max : ℚ
  humidity_min : ℚ
  humidity_max : ℚ
  eco2_min : ℚ
  eco2_max : ℚ
deriving DecidableEq, Repr

/-- Column defaults of the `thresholds` table (server3.py lines 148-164). -/
def default_db_row : DbThresholdRow :=
  { tvoc_max := 660, temp_min := 18, temp_max := 35, humidity_min := 30,
    humidity_max := 70, eco2_min := 400, eco2_max := 1000 }

/-- Outcome of a POST to `/api/thresholds/<room>`. -/
inductive ApiResponse where
  | missingField (key : String)
  | badRange (metric : String)
  | ok
deriving DecidableEq, Repr

/-- State after a POST to `/api/thresholds/<room>`: the HTTP outcome, the
room's in-memory threshold dict, and the room's persisted row. -/
structure ApiResult where
  response : ApiResponse
  thresholds : ThresholdDict
  dbRow : DbThresholdRow
deriving DecidableEq, Repr

/-- server3.py `api_thresholds`, POST branch (lines 1857-1904). The handler
first rejects if any required key is missing (no mutation yet), then writes
every required key into the room's in-memory dict IN PLACE, and only then
runs the three min/max validations; a validation failure returns 400
without reaching `db.update_thresholds`, but the in-memory dict keeps the
freshly written values. On success the persisted row is overwritten from
the dict. -/
def api_thresholds_post (mem : ThresholdDict) (dbRow : DbThresholdRow)
    (payload : List (String × ℚ)) : ApiResult :=
  match required_keys.find? (fun k => (dictLookup payload k).isNone) with
  | some k => { response := .missingField k, thresholds := mem, dbRow := dbRow }
  | none =>
      let mem1 := required_keys.foldl
        (fun m k => dictSet m k ((dictLookup payload k).getD 0)) mem
      if dGet mem1 "temp_min" > dGet mem1 "temp_max" then
        { response := .badRange "temperature", thresholds := mem1, dbRow := dbRow }
      else if dGet mem1 "humidity_min" > dGet mem1 "humidity_max" then
        { response := .badRange "humidity", thresholds := mem1, dbRow := dbRow }
      else if dGet mem1 "eco2_min" > dGet mem1 "eco2_max" then
        { response := .badRange "eco2", thresholds := mem1, dbRow := dbRow }
      else
        { response := .ok, thresholds := mem1,
          dbRow :=
            { tvoc_max := dGet mem1 "tvoc_max", temp_min := dGet mem1 "temp_min",
              temp_max := dGet mem1 "temp_max",
              humidity_min := dGet mem1 "humidity_min",
              humidity_max := dGet mem1 "humidity_max",
              eco2_min := dGet mem1 "eco2_min",
              eco2_max := dGet mem1 "eco2_max" } }

/-- Scenario E payload: all five canonical fields except `temperature`,
each numeric. -/
def scenarioE_payload : Payload :=
  [("tvoc", .num 100), ("humidity", .num 50), ("eco2", .num 500),
   ("aqi", .num 2)]

/-- Scenario C payload: every required key present, `humidity_min` (80)
above `humidity_max` (70). -/
def scenarioC_payload : List (String × ℚ) :=
  [("tvoc_max", 660), ("temp_min", 18), ("temp_max", 35),
   ("humidity_min", 80), ("humidity_max", 70),
   ("eco2_min", 400), ("eco2_max", 1000)]

/-- A threshold-update payload with the required key `humidity_max`
absent. -/
def missing_key_payload : List (String × ℚ) :=
  [("tvoc_max", 660), ("temp_min", 18), ("temp_max", 35),
   ("humidity_min", 80), ("eco2_min", 400), ("eco2_max", 1000)]

end AirSense

namespace Server2

open AirSense (Alert dictSet cooldownOk fmtQ)

/-- The threshold dict of src/server2.py lines 50-57 (single-sensor-set
variant; TVOC measured in mg/m³ with a single cut point). -/
structure Thresholds2 where
  tvoc_max : ℚ
  temp_min : ℚ
  temp_max : ℚ
  humidity_min : ℚ
  humidity_max : ℚ
deriving DecidableEq, Repr

/-- server2.py lines 50-57; `tvoc_max` is 0.5 mg/m³, written `mkRat 1 2`
to keep the constant kernel-reducible. -/
def DEFAULT_THRESHOLDS : Thresholds2 :=
  { tvoc_max := mkRat 1 2, temp_min := 18, temp_max := 30,
    humidity_min := 30, humidity_max := 70 }

/-- Result of server2.py `check_thresholds_and_alert`: the returned alerts,
the updated cooldown dict, the Telegram messages sent (one `send` call per
list entry, in order), and the `alert_history` rows written. -/
structure Eval2Result where
  alerts : List Alert
  last_alert_time : List (String × Nat)
  sends : List String
  logged : List (String × String)
deriving DecidableEq, Repr

/-- server2.py `check_thresholds_and_alert` (lines 214-283): each metric
block calls `send_telegram_alert` on its own inside its cooldown guard, so
one evaluation can send several Telegram messages. -/
def check_thresholds_and_alert (th : Thresholds2)
    (last0 : List (String × Nat)) (now : Nat)
    (tvoc temperature humidity : ℚ) : Eval2Result :=
  -- TVOC block, lines 221-238
  let tvocFires := decide (tvoc > th.tvoc_max) && cooldownOk last0 "tvoc_high" now 300
  let tvocMsg := "TVOC too high: " ++ fmtQ tvoc ++ " mg/m3 (Threshold: " ++
    fmtQ th.tvoc_max ++ " mg/m3)\nRecommendation: Open windows or increase ventilation!"
  let last1 := if tvocFires then dictSet last0 "tvoc_high" now else last0
  let sends1 := if tvocFires then [tvocMsg] else []
  let logged1 := if tvocFires then [("tvoc_high", tvocMsg)] else []
  let alerts1 : List Alert :=
    if tvocFires then
      [{ type := "tvoc_high", message := "TVOC high: " ++ fmtQ tvoc ++ " mg/m3",
         severity := "danger", level := none }]
    else []
  -- temperature block, lines 240-260
  let tempBreach := decide (temperature < th.temp_min) || decide (temperature > th.temp_max)
  let tempFires := tempBreach && cooldownOk last1 "temp_abnormal" now 600
  let tempMsg :=
    if temperature < th.temp_min then
      "Temperature too low: " ++ fmtQ temperature ++ "°C (Minimum: " ++
        fmtQ th.temp_min ++ "°C)"
    else
      "Temperature too high: " ++ fmtQ temperature ++ "°C (Maximum: " ++
        fmtQ th.temp_max ++ "°C)"
  let last2 := if tempFires then dictSet last1 "temp_abnormal" now else last1
  let sends2 := sends1 ++ (if tempFires then [tempMsg] else [])
  let logged2 := logged1 ++ (if tempFires then [("temp_abnormal", tempMsg)] else [])
  let alerts2 := alerts1 ++
    (if tempFires then
      [{ type := "temp_abnormal",
         message := "Abnormal temperature: " ++ fmtQ temperature ++ "°C",
         severity := "warning", level := none }]
    else [])
  -- humidity block, lines 262-282
  let humBreach := decide (humidity < th.humidity_min) || decide (humidity > th.humidity_max)
  let humFires := humBreach && cooldownOk last2 "humidity_abnormal" now 600
  let humMsg :=
    if humidity < th.humidity_min then
      "Humidity too low: " ++ fmtQ humidity ++ "% (Minimum: " ++
        fmtQ th.humidity_min ++ "%)"
    else
      "Humidity too high: " ++ fmtQ humidity ++ "% (Maximum: " ++
        fmtQ th.humidity_max ++ "%)"
  let last3 := if humFires then dictSet last2 "humidity_abnormal" now else last2
  let sends3 := sends2 ++ (if humFires then [humMsg] else [])
  let logged3 := logged2 ++ (if humFires then [("humidity_abnormal", humMsg)] else [])
  let alerts3 := alerts2 ++
    (if humFires then
      [{ type := "humidity_abnormal",
         message := "Abnormal humidity: " ++ fmtQ humidity ++ "%",
         severity := "warning", level := none }]
    else [])
  { alerts := alerts3, last_alert_time := last3, sends := sends3,
    logged := logged3 }

end Server2

namespace AirSense

/-! Helper lemmas shared by several results. -/

theorem dictLookup_mem {α : Type} {m : List (String × α)} {k : String}
    {v : α} (h : dictLookup m k = some v) : (k, v) ∈ m := by
  induction m with
  | nil => simp [dictLookup] at h
  | cons kv rest ih =>
      obtain ⟨k₀, v₀⟩ := kv
      by_cases hk : k₀ = k
      · simp [dictLookup, hk] at h
        simp [hk, h]
      · simp [dictLookup, hk] at h
        exact List.mem_cons_of_mem _ (ih h)

theorem decodeFloatField_numeric (data : Payload) (k K : String)
    (hNum : ∀ kv ∈ data, PyVal.isNum kv.2 = true) :
    decodeFloatField data k K = some (qGetD data k K 0) := by
  unfold decodeFloatField qGetD
  cases h1 : dictLookup data k with
  | some v =>
      have := hNum (k, v) (dictLookup_mem h1)
      cases v with
      | num q => simp [pyFloat]
      | nonNumeric t => simp [PyVal.isNum] at this
  | none =>
      cases h2 : dictLookup data K with
      | some v =>
          have := hNum (K, v) (dictLookup_mem h2)
          cases v with
          | num q => simp [pyFloat]
          | nonNumeric t => simp [PyVal.isNum] at this
      | none => simp [pyFloat]

theorem decodeAqi_numeric (data : Payload)
    (hNum : ∀ kv ∈ data, PyVal.isNum kv.2 = true) :
    decodeAqi data = some (zGetD data "aqi" "AQI" 1) := by
  unfold decodeAqi zGetD
  cases h1 : dictLookup data "aqi" with
  | some v =>
      have := hNum ("aqi", v) (dictLookup_mem h1)
      cases v with
      | num q => simp [pyInt]
      | nonNumeric t => simp [PyVal.isNum] at this
  | none =>
      cases h2 : dictLookup data "AQI" with
      | some v =>
          have := hNum ("AQI", v) (dictLookup_mem h2)
          cases v with
          | num q => simp [pyInt]
          | nonNumeric t => simp [PyVal.isNum] at this
      | none => simp [pyInt]

theorem decodeReading_numeric (data : Payload) (now : Nat)
    (hNum : ∀ kv ∈ data, PyVal.isNum kv.2 = true) :
    decodeReading data now = some (numReading data now) := by
  unfold decodeReading numReading
  rw [decodeFloatField_numeric data "tvoc" "TVOC" hNum,
    decodeFloatField_numeric data "temperature" "Temperature" hNum,
    decodeFloatField_numeric data "humidity" "Humidity" hNum,
    decodeFloatField_numeric data "eco2" "eCO2" hNum,
    decodeAqi_numeric data hNum]

theorem classifyTvoc_severity (th : Thresholds) (v : ℚ)
    (h : (classifyTvoc th v).2.2.isSome = true) :
    (classifyTvoc th v).2.1 = "warning" ∨ (classifyTvoc th v).2.1 = "danger" := by
  unfold classifyTvoc at h ⊢
  split_ifs at h ⊢ <;> simp_all

theorem classifyTemp_severity (th : Thresholds) (v : ℚ)
    (h : (classifyTemp th v).2.2.2.isSome = true) :
    (classifyTemp th v).2.2.1 = "warning" ∨ (classifyTemp th v).2.2.1 = "danger" := by
  unfold classifyTemp at h ⊢
  split_ifs at h ⊢ <;> simp_all

theorem classifyHumidity_severity (th : Thresholds) (v : ℚ)
    (h : (classifyHumidity th v).2.2.2.isSome = true) :
    (classifyHumidity th v).2.2.1 = "warning" ∨ (classifyHumidity th v).2.2.1 = "danger" := by
  unfold classifyHumidity at h ⊢
  split_ifs at h ⊢ <;> simp_all

theorem classifyEco2_severity (th : Thresholds) (v : ℚ)
    (h : (classifyEco2 th v).2.2.2.isSome = true) :
    (classifyEco2 th v).2.2.1 = "warning" ∨ (classifyEco2 th v).2.2.1 = "danger" := by
  unfold classifyEco2 at h ⊢
  split_ifs at h ⊢ <;> simp_all

end AirSense

namespace AirSense

/-! Claim theorems. -/

/-- C1: evaluation at the failing input. A tvoc breach ("bedroom", default
thresholds, tvoc = 700 > 660, everything else normal) at time t0 = 0 fires
and records the cooldown entry; a second breaching evaluation of the same
key at t1 = 86700 (one day plus the 300-second window, so t1 - t0 > 300)
is nevertheless suppressed: the code compares the within-day seconds
component of the timedelta, (86700 - 0) % 86400 = 300, which is not > 300.
Only one notification is produced where the claim requires two. -/
theorem cooldown_wraps_after_one_day :
    (check_thresholds_and_alert "bedroom" DEFAULT_THRESHOLDS [] 1 0 true
        700 25 50 500).sendAttempts = 1 ∧
    (check_thresholds_and_alert "bedroom" DEFAULT_THRESHOLDS [] 1 0 true
        700 25 50 500).last_alert_time = [("tvoc_too_high", 0)] ∧
    (check_thresholds_and_alert "bedroom" DEFAULT_THRESHOLDS
        [("tvoc_too_high", 0)] 1 86700 true 700 25 50 500).sendAttempts = 0 ∧
    (check_thresholds_and_alert "bedroom" DEFAULT_THRESHOLDS
        [("tvoc_too_high", 0)] 1 86700 true 700 25 50 500).notification = none ∧
    86700 - 0 > 300 := by
  exact ⟨rfl, rfl, rfl, rfl, by norm_num⟩

/-- C2: counterexample. The eCO2 classification is NOT a function of the
strictly-greater comparisons against its cut points: with default
thresholds, 400 and 399 give identical results for every strict comparison
(eco2 > eco2_min, eco2 > eco2_normal, eco2 > eco2_high are all false for
both), yet they classify differently (normal vs low), because the source
tests `eco2 >= thresholds["eco2_min"]` at the lowest boundary. -/
theorem eco2_classification_not_strict_only :
    (decide ((400 : ℚ) > DEFAULT_THRESHOLDS.eco2_min)
      = decide ((399 : ℚ) > DEFAULT_THRESHOLDS.eco2_min)) ∧
    (decide ((400 : ℚ) > DEFAULT_THRESHOLDS.eco2_normal)
      = decide ((399 : ℚ) > DEFAULT_THRESHOLDS.eco2_normal)) ∧
    (decide ((400 : ℚ) > DEFAULT_THRESHOLDS.eco2_high)
      = decide ((399 : ℚ) > DEFAULT_THRESHOLDS.eco2_high)) ∧
    (classifyEco2 DEFAULT_THRESHOLDS 400).1 ≠ (classifyEco2 DEFAULT_THRESHOLDS 399).1 ∧
    (classifyEco2 DEFAULT_THRESHOLDS 400).2.1 ≠ (classifyEco2 DEFAULT_THRESHOLDS 399).2.1 := by
  decide

/-- C2 (amended): tvoc classification uses only strictly-greater
comparisons (it is a function of the strict-comparison profile against its
three cut points); eCO2 classification uses strictly-greater comparisons at
eco2_normal and eco2_high but `>=` at eco2_min (it is a function of that
profile); in both cases, for ordered cut points, a value exactly on a
boundary is assigned the tier of lower severity among the two tiers
adjacent to that boundary; and classification is a pure function of value
and thresholds, so repeated identical boundary readings never alternate
tiers. -/
theorem boundary_ties_resolve_to_lower_severity (th : Thresholds) (v w : ℚ)
    (o1 : th.tvoc_good ≤ th.tvoc_normal) (o2 : th.tvoc_normal ≤ th.tvoc_high)
    (o3 : th.eco2_min ≤ th.eco2_normal) (o4 : th.eco2_normal ≤ th.eco2_high)
    (p1 : v > th.tvoc_good ↔ w > th.tvoc_good)
    (p2 : v > th.tvoc_normal ↔ w > th.tvoc_normal)
    (p3 : v > th.tvoc_high ↔ w > th.tvoc_high)
    (q1 : v ≥ th.eco2_min ↔ w ≥ th.eco2_min)
    (q2 : v > th.eco2_normal ↔ w > th.eco2_normal)
    (q3 : v > th.eco2_high ↔ w > th.eco2_high) :
    ((classifyTvoc th v).1 = (classifyTvoc th w).1 ∧
      (classifyTvoc th v).2.1 = (classifyTvoc th w).2.1) ∧
    ((classifyEco2 th v).1 = (classifyEco2 th w).1 ∧
      (classifyEco2 th v).2.1 = (classifyEco2 th w).2.1 ∧
      (classifyEco2 th v).2.2.1 = (classifyEco2 th w).2.2.1) ∧
    sevRank (classifyTvoc th th.tvoc_good).2.1 = 0 ∧
    sevRank (classifyTvoc th th.tvoc_normal).2.1 ≤ 1 ∧
    sevRank (classifyTvoc th th.tvoc_high).2.1 ≤ 2 ∧
    sevRank (classifyEco2 th th.eco2_min).2.2.1 = 0 ∧
    sevRank (classifyEco2 th th.eco2_normal).2.2.1 = 0 ∧
    sevRank (classifyEco2 th th.eco2_high).2.2.1 ≤ 2 := by
  refine ⟨?_, ?_, ?_, ?_, ?_, ?_, ?_, ?_⟩
  · by_cases h3 : v > th.tvoc_high
    · have h3w := p3.mp h3
      simp [classifyTvoc, h3, h3w]
    · have h3w := (not_congr p3).mp h3
      by_cases h2 : v > th.tvoc_normal
      · have h2w := p2.mp h2
        simp [classifyTvoc, h3, h3w, h2, h2w]
      · have h2w := (not_congr p2).mp h2
        by_cases h1 : v > th.tvoc_good
        · have h1w := p1.mp h1
          simp [classifyTvoc, h3, h3w, h2, h2w, h1, h1w]
        · have h1w := (not_congr p1).mp h1
          simp [classifyTvoc, h3, h3w, h2, h2w, h1, h1w]
  · by_cases h3 : v > th.eco2_high
    · have h3w := q3.mp h3
      simp [classifyEco2, h3, h3w]
    · have h3w := (not_congr q3).mp h3
      by_cases h2 : v > th.eco2_normal
      · have h2w := q2.mp h2
        simp [classifyEco2, h3, h3w, h2, h2w]
      · have h2w := (not_congr q2).mp h2
        by_cases h1 : v ≥ th.eco2_min
        · have h1w := q1.mp h1
          simp [classifyEco2, h3, h3w, h2, h2w, h1, h1w]
        · have h1w := (not_congr q1).mp h1
          simp [classifyEco2, h3, h3w, h2, h2w, h1, h1w]
  · have g1 : ¬(th.tvoc_good > th.tvoc_high) := by linarith
    have g2 : ¬(th.tvoc_good > th.tvoc_normal) := by linarith
    have g3 : ¬(th.tvoc_good > th.tvoc_good) := by linarith
    simp [classifyTvoc, g1, g2, g3, sevRank]
  · by_cases h1 : th.tvoc_normal > th.tvoc_good
    · have g1 : ¬(th.tvoc_normal > th.tvoc_high) := by linarith
      have g2 : ¬(th.tvoc_normal > th.tvoc_normal) := by linarith
      simp [classifyTvoc, g1, g2, h1, sevRank]
    · have g1 : ¬(th.tvoc_normal > th.tvoc_high) := by linarith
      have g2 : ¬(th.tvoc_normal > th.tvoc_normal) := by linarith
      simp [classifyTvoc, g1, g2, h1, sevRank]
  · have g1 : ¬(th.tvoc_high > th.tvoc_high) := by linarith
    by_cases h2 : th.tvoc_high > th.tvoc_normal
    · simp [classifyTvoc, g1, h2, sevRank]
    · by_cases h1 : th.tvoc_high > th.tvoc_good
      · simp [classifyTvoc, g1, h2, h1, sevRank]
      · simp [classifyTvoc, g1, h2, h1, sevRank]
  · have g1 : ¬(th.eco2_min > th.eco2_high) := by linarith
    have g2 : ¬(th.eco2_min > th.eco2_normal) := by linarith
    have g3 : th.eco2_min ≥ th.eco2_min := le_refl _
    simp [classifyEco2, g1, g2, g3, sevRank]
  · have g1 : ¬(th.eco2_normal > th.eco2_high) := by linarith
    have g2 : ¬(th.eco2_normal > th.eco2_normal) := by linarith
    have g3 : th.eco2_normal ≥ th.eco2_min := by linarith
    simp [classifyEco2, g1, g2, g3, sevRank]
  · have g1 : ¬(th.eco2_high > th.eco2_high) := by linarith
    by_cases h2 : th.eco2_high > th.eco2_normal
    · simp [classifyEco2, g1, h2, sevRank]
    · have g3 : th.eco2_high ≥ th.eco2_min := by linarith
      simp [classifyEco2, g1, h2, g3, sevRank]

/-- C2 (amended), witness at the default thresholds with v = w = 0. -/
theorem boundary_ties_resolve_to_lower_severity_witness :
    ((classifyTvoc DEFAULT_THRESHOLDS 0).1 = (classifyTvoc DEFAULT_THRESHOLDS 0).1 ∧
      (classifyTvoc DEFAULT_THRESHOLDS 0).2.1 = (classifyTvoc DEFAULT_THRESHOLDS 0).2.1) ∧
    ((classifyEco2 DEFAULT_THRESHOLDS 0).1 = (classifyEco2 DEFAULT_THRESHOLDS 0).1 ∧
      (classifyEco2 DEFAULT_THRESHOLDS 0).2.1 = (classifyEco2 DEFAULT_THRESHOLDS 0).2.1 ∧
      (classifyEco2 DEFAULT_THRESHOLDS 0).2.2.1 = (classifyEco2 DEFAULT_THRESHOLDS 0).2.2.1) ∧
    sevRank (classifyTvoc DEFAULT_THRESHOLDS DEFAULT_THRESHOLDS.tvoc_good).2.1 = 0 ∧
    sevRank (classifyTvoc DEFAULT_THRESHOLDS DEFAULT_THRESHOLDS.tvoc_normal).2.1 ≤ 1 ∧
    sevRank (classifyTvoc DEFAULT_THRESHOLDS DEFAULT_THRESHOLDS.tvoc_high).2.1 ≤ 2 ∧
    sevRank (classifyEco2 DEFAULT_THRESHOLDS DEFAULT_THRESHOLDS.eco2_min).2.2.1 = 0 ∧
    sevRank (classifyEco2 DEFAULT_THRESHOLDS DEFAULT_THRESHOLDS.eco2_normal).2.2.1 = 0 ∧
    sevRank (classifyEco2 DEFAULT_THRESHOLDS DEFAULT_THRESHOLDS.eco2_high).2.2.1 ≤ 2 :=
  boundary_ties_resolve_to_lower_severity DEFAULT_THRESHOLDS 0 0
    (by decide) (by decide) (by decide) (by decide)
    Iff.rfl Iff.rfl Iff.rfl Iff.rfl Iff.rfl Iff.rfl

/-- C3: evaluation at the failing input. A fully normal reading (default
thresholds, tvoc 0 ≤ 65, temperature 25 ∈ [18, 35], humidity 50 ∈ [30, 70],
eco2 500 ∈ [400, 1000]) sends no notification and creates no cooldown
entry, but the returned broadcast alert list is NOT empty: the defective
humidity block appends its `humidity_abnormal` warning unconditionally. -/
theorem normal_reading_still_broadcasts_alert :
    (check_thresholds_and_alert "bedroom" DEFAULT_THRESHOLDS [] 1 0 true
        0 25 50 500).alerts =
      [{ type := "humidity_abnormal", message := "Abnormal humidity: 50%",
         severity := "warning", level := none }] ∧
    (check_thresholds_and_alert "bedroom" DEFAULT_THRESHOLDS [] 1 0 true
        0 25 50 500).notification = none ∧
    (check_thresholds_and_alert "bedroom" DEFAULT_THRESHOLDS [] 1 0 true
        0 25 50 500).last_alert_time = [] ∧
    (check_thresholds_and_alert "bedroom" DEFAULT_THRESHOLDS [] 1 0 true
        0 25 50 500).should_send_alert = false := by
  exact ⟨rfl, rfl, rfl, rfl⟩

end AirSense

namespace AirSense

/-! More helper lemmas. -/

theorem mem_ite_nil {α : Type} {c : Prop} [Decidable c] {l : List α} {a : α} :
    a ∈ (if c then l else []) ↔ c ∧ a ∈ l := by
  by_cases h : c
  · simp [h]
  · simp [h]

theorem check_notification_shape (room : String) (th : Thresholds)
    (last0 : List (String × Nat)) (aqi : Int) (now : Nat) (d : Bool)
    (tvoc temperature humidity eco2 : ℚ) :
    (check_thresholds_and_alert room th last0 aqi now d
        tvoc temperature humidity eco2).notification =
      (if (check_thresholds_and_alert room th last0 aqi now d
            tvoc temperature humidity eco2).should_send_alert then
        some (String.intercalate "\n"
          (check_thresholds_and_alert room th last0 aqi now d
            tvoc temperature humidity eco2).alert_messages ++ recommendations)
      else none) := rfl

theorem check_sendAttempts_shape (room : String) (th : Thresholds)
    (last0 : List (String × Nat)) (aqi : Int) (now : Nat) (d : Bool)
    (tvoc temperature humidity eco2 : ℚ) :
    (check_thresholds_and_alert room th last0 aqi now d
        tvoc temperature humidity eco2).sendAttempts =
      (if (check_thresholds_and_alert room th last0 aqi now d
            tvoc temperature humidity eco2).should_send_alert then 1 else 0) := rfl

theorem check_sendLog_shape (room : String) (th : Thresholds)
    (last0 : List (String × Nat)) (aqi : Int) (now : Nat) (d : Bool)
    (tvoc temperature humidity eco2 : ℚ) :
    (check_thresholds_and_alert room th last0 aqi now d
        tvoc temperature humidity eco2).sendLog =
      (if (check_thresholds_and_alert room th last0 aqi now d
            tvoc temperature humidity eco2).should_send_alert then
        [send_telegram_alert d room]
      else []) := rfl

end AirSense

namespace AirSense

/-- C4 (counterexample): the legacy single-room evaluator of server2.py
calls `send_telegram_alert` separately inside each metric block. With its
default thresholds, an evaluation of tvoc = 1 (> 0.5) and temperature = 10
(< 18) on an empty cooldown dict performs two Telegram sends — two
notifications for one evaluation, not one combined notification. -/
theorem legacy_evaluator_sends_per_metric :
    (Server2.check_thresholds_and_alert Server2.DEFAULT_THRESHOLDS [] 0
        1 10 50).sends.length = 2 := rfl

/-- C4 (amended): in the two-room evaluator of server3.py, whenever at
least one metric alert passes its cooldown check (`should_send_alert`),
exactly one Telegram send happens for the whole evaluation, and its text is
the buffered messages joined with the newline separator followed by the
static recommendation suffix. (The legacy server2.py evaluator instead
sends one notification per breached metric; see the counterexample.) -/
theorem one_combined_notification_per_evaluation (room : String)
    (th : Thresholds) (last0 : List (String × Nat)) (aqi : Int) (now : Nat)
    (d : Bool) (tvoc temperature humidity eco2 : ℚ)
    (h : (check_thresholds_and_alert room th last0 aqi now d
        tvoc temperature humidity eco2).should_send_alert = true) :
    (check_thresholds_and_alert room th last0 aqi now d
        tvoc temperature humidity eco2).sendAttempts = 1 ∧
    (check_thresholds_and_alert room th last0 aqi now d
        tvoc temperature humidity eco2).notification =
      some (String.intercalate "\n"
        (check_thresholds_and_alert room th last0 aqi now d
          tvoc temperature humidity eco2).alert_messages ++ recommendations) := by
  refine ⟨?_, ?_⟩
  · rw [check_sendAttempts_shape, if_pos]
    exact h
  · rw [check_notification_shape, if_pos]
    exact h

/-- C4 (amended), witness: a breaching tvoc reading at default thresholds
fires, and the evaluation performs exactly one combined send. -/
theorem one_combined_notification_witness :
    (check_thresholds_and_alert "bedroom" DEFAULT_THRESHOLDS [] 1 0 true
        700 25 50 500).sendAttempts = 1 ∧
    (check_thresholds_and_alert "bedroom" DEFAULT_THRESHOLDS [] 1 0 true
        700 25 50 500).notification =
      some (String.intercalate "\n"
        (check_thresholds_and_alert "bedroom" DEFAULT_THRESHOLDS [] 1 0 true
          700 25 50 500).alert_messages ++ recommendations) :=
  one_combined_notification_per_evaluation "bedroom" DEFAULT_THRESHOLDS []
    1 0 true 700 25 50 500 rfl

/-- C5: evaluation at the failing input (Scenario C). A threshold update
with humidity_min = 80 > humidity_max = 70 is rejected with a validation
error and the persisted row is untouched, but the in-memory per-room
threshold dict has ALREADY been overwritten with the rejected values
(humidity_min is now 80 instead of the stored 30): the handler writes the
dict before validating. A payload with a missing required key, by contrast,
is rejected before any mutation. -/
theorem rejected_threshold_update_mutates_memory :
    (api_thresholds_post default_threshold_dict default_db_row
        scenarioC_payload).response = ApiResponse.badRange "humidity" ∧
    dictLookup (api_thresholds_post default_threshold_dict default_db_row
        scenarioC_payload).thresholds "humidity_min" = some 80 ∧
    dictLookup (api_thresholds_post default_threshold_dict default_db_row
        scenarioC_payload).thresholds "humidity_max" = some 70 ∧
    dictLookup default_threshold_dict "humidity_min" = some 30 ∧
    (api_thresholds_post default_threshold_dict default_db_row
        scenarioC_payload).dbRow = default_db_row ∧
    api_thresholds_post default_threshold_dict default_db_row
        missing_key_payload =
      { response := ApiResponse.missingField "humidity_max",
        thresholds := default_threshold_dict, dbRow := default_db_row } := by
  exact ⟨rfl, rfl, rfl, rfl, rfl, rfl⟩

end AirSense

namespace AirSense

/-- C6 (counterexample): the source AQI category map sends 3 to the
misspelled string "Morderate", not "Moderate" as the claim states. -/
theorem aqi_category_three_misspelled :
    aqi_descriptions 3 = "Morderate" ∧ aqi_descriptions 3 ≠ "Moderate" := by
  exact ⟨rfl, by decide⟩

/-- C6 (amended): the AQI map sends 1, 2, 3, 4, 5 to Excellent, Good,
"Morderate" (sic), Poor, Unhealthy and every other integer to "Undefined";
the message buffer of every evaluation is the metric-block buffer followed
by exactly one trailing AQI line for the room's current AQI (the combined
notification then appends the recommendation suffix after it); and the AQI
value has no influence on the returned alert list, on the cooldown dict, or
on whether a notification fires. -/
theorem aqi_line_is_informational_only (room : String) (th : Thresholds)
    (last0 : List (String × Nat)) (now : Nat) (d : Bool)
    (tvoc temperature humidity eco2 : ℚ) (aqi aqi2 n : Int)
    (hn : n < 1 ∨ 5 < n) :
    aqi_descriptions 1 = "Excellent" ∧
    aqi_descriptions 2 = "Good" ∧
    aqi_descriptions 3 = "Morderate" ∧
    aqi_descriptions 4 = "Poor" ∧
    aqi_descriptions 5 = "Unhealthy" ∧
    aqi_descriptions n = "Undefined" ∧
    (check_thresholds_and_alert room th last0 aqi now d
        tvoc temperature humidity eco2).alert_messages =
      (metricBlocks th last0 now tvoc temperature humidity eco2).alert_messages
        ++ ["AQI Level: " ++ aqi_descriptions aqi] ∧
    (check_thresholds_and_alert room th last0 aqi now d
        tvoc temperature humidity eco2).alert_messages.getLast? =
      some ("AQI Level: " ++ aqi_descriptions aqi) ∧
    (check_thresholds_and_alert room th last0 aqi now d
        tvoc temperature humidity eco2).alert_messages.dropLast =
      (check_thresholds_and_alert room th last0 aqi2 now d
        tvoc temperature humidity eco2).alert_messages.dropLast ∧
    (check_thresholds_and_alert room th last0 aqi now d
        tvoc temperature humidity eco2).alerts =
      (check_thresholds_and_alert room th last0 aqi2 now d
        tvoc temperature humidity eco2).alerts ∧
    (check_thresholds_and_alert room th last0 aqi now d
        tvoc temperature humidity eco2).last_alert_time =
      (check_thresholds_and_alert room th last0 aqi2 now d
        tvoc temperature humidity eco2).last_alert_time ∧
    (check_thresholds_and_alert room th last0 aqi now d
        tvoc temperature humidity eco2).should_send_alert =
      (check_thresholds_and_alert room th last0 aqi2 now d
        tvoc temperature humidity eco2).should_send_alert := by
  refine ⟨rfl, rfl, rfl, rfl, rfl, ?_, rfl, ?_, ?_, rfl, rfl, rfl⟩
  · unfold aqi_descriptions
    rcases hn with hn | hn <;> split_ifs <;> first | rfl | omega
  · show ((metricBlocks th last0 now tvoc temperature humidity eco2).alert_messages
      ++ ["AQI Level: " ++ aqi_descriptions aqi]).getLast? = _
    simp
  · show ((metricBlocks th last0 now tvoc temperature humidity eco2).alert_messages
      ++ ["AQI Level: " ++ aqi_descriptions aqi]).dropLast =
      ((metricBlocks th last0 now tvoc temperature humidity eco2).alert_messages
      ++ ["AQI Level: " ++ aqi_descriptions aqi2]).dropLast
    simp

/-- C6 (amended), witness at a concrete evaluation with AQI 3. -/
theorem aqi_line_is_informational_only_witness :
    aqi_descriptions 1 = "Excellent" ∧
    aqi_descriptions 2 = "Good" ∧
    aqi_descriptions 3 = "Morderate" ∧
    aqi_descriptions 4 = "Poor" ∧
    aqi_descriptions 5 = "Unhealthy" ∧
    aqi_descriptions 7 = "Undefined" ∧
    (check_thresholds_and_alert "bedroom" DEFAULT_THRESHOLDS [] 3 0 true
        700 25 50 500).alert_messages =
      (metricBlocks DEFAULT_THRESHOLDS [] 0 700 25 50 500).alert_messages
        ++ ["AQI Level: " ++ aqi_descriptions 3] ∧
    (check_thresholds_and_alert "bedroom" DEFAULT_THRESHOLDS [] 3 0 true
        700 25 50 500).alert_messages.getLast? =
      some ("AQI Level: " ++ aqi_descriptions 3) ∧
    (check_thresholds_and_alert "bedroom" DEFAULT_THRESHOLDS [] 3 0 true
        700 25 50 500).alert_messages.dropLast =
      (check_thresholds_and_alert "bedroom" DEFAULT_THRESHOLDS [] 4 0 true
        700 25 50 500).alert_messages.dropLast ∧
    (check_thresholds_and_alert "bedroom" DEFAULT_THRESHOLDS [] 3 0 true
        700 25 50 500).alerts =
      (check_thresholds_and_alert "bedroom" DEFAULT_THRESHOLDS [] 4 0 true
        700 25 50 500).alerts ∧
    (check_thresholds_and_alert "bedroom" DEFAULT_THRESHOLDS [] 3 0 true
        700 25 50 500).last_alert_time =
      (check_thresholds_and_alert "bedroom" DEFAULT_THRESHOLDS [] 4 0 true
        700 25 50 500).last_alert_time ∧
    (check_thresholds_and_alert "bedroom" DEFAULT_THRESHOLDS [] 3 0 true
        700 25 50 500).should_send_alert =
      (check_thresholds_and_alert "bedroom" DEFAULT_THRESHOLDS [] 4 0 true
        700 25 50 500).should_send_alert :=
  aqi_line_is_informational_only "bedroom" DEFAULT_THRESHOLDS [] 0 true
    700 25 50 500 3 4 7 (by decide)

/-- C7 (counterexample): a payload whose `temperature` field is present but
not numerically coercible makes `float(...)` raise; the exception is caught
by the whole-callback try/except, so the ingestion of that payload is
aborted entirely: the state is untouched, nothing is persisted, nothing is
broadcast — the claim says such a payload is recovered by default
substitution and still persisted and broadcast. -/
theorem malformed_field_aborts_ingestion :
    on_message initialServerState Room.bedroom
        [("temperature", PyVal.nonNumeric "abc")] 5 true
      = (initialServerState, none) := rfl

/-- C7 (amended): for a payload all of whose fields are numeric, ingestion
never aborts: each of the five metrics is decoded by looking up the
lowercase spelling, then the capitalized spelling, then the default (0 for
tvoc/temperature/humidity/eco2, 1 for aqi), and the decoded reading is both
persisted and broadcast. A present field that fails numeric coercion, by
contrast, aborts the whole ingestion of that payload (see the
counterexample). -/
theorem numeric_payload_ingestion_succeeds (s : ServerState) (room : Room)
    (data : Payload) (now : Nat) (d : Bool)
    (hNum : ∀ kv ∈ data, PyVal.isNum kv.2 = true) :
    ((on_message s room data now d).2).map IngestEffects.dbInsert
      = some (roomName room, numReading data now) ∧
    ((on_message s room data now d).2).map
        (fun e => (e.broadcast.1, e.broadcast.2.1))
      = some (roomName room, numReading data now) ∧
    ((on_message s room data now d).2).isSome = true := by
  have hd := decodeReading_numeric data now hNum
  unfold on_message
  rw [hd]
  exact ⟨rfl, rfl, rfl⟩

/-- C7 (amended), witness: the Scenario E payload (numeric tvoc, humidity,
eco2, aqi; no temperature field in either spelling) is ingested with
temperature defaulted to 0, and is persisted and broadcast. -/
theorem numeric_payload_ingestion_witness :
    ((on_message initialServerState Room.bedroom scenarioE_payload 5
        true).2).map IngestEffects.dbInsert
      = some ("bedroom",
          { tvoc := 100, temperature := 0, humidity := 50, eco2 := 500,
            aqi := 2, timestamp := 5 }) ∧
    ((on_message initialServerState Room.bedroom scenarioE_payload 5
        true).2).map (fun e => (e.broadcast.1, e.broadcast.2.1))
      = some ("bedroom",
          { tvoc := 100, temperature := 0, humidity := 50, eco2 := 500,
            aqi := 2, timestamp := 5 }) ∧
    ((on_message initialServerState Room.bedroom scenarioE_payload 5
        true).2).isSome = true :=
  numeric_payload_ingestion_succeeds initialServerState Room.bedroom
    scenarioE_payload 5 true (by decide)

end AirSense

namespace AirSense

/-- C8: a Telegram delivery failure is invisible to the evaluator.
`send_telegram_alert` catches every exception and only logs, so the
evaluation run with a failing channel produces the same alert list, the
same cooldown dict, the same notification text, the same send count (and
the same `alert_history` rows) as the run with a working channel; at most
one send is ever attempted per evaluation (no retry), the failed attempt
leaves exactly the error log line, and the post-ingestion server state
(including the freshly stored current reading) is identical whether or not
delivery succeeded. -/
theorem delivery_failure_does_not_change_outcome (room : String)
    (th : Thresholds) (last0 : List (String × Nat)) (aqi : Int) (now : Nat)
    (tvoc temperature humidity eco2 : ℚ) (s : ServerState) (rm : Room)
    (data : Payload) (now2 : Nat) :
    (check_thresholds_and_alert room th last0 aqi now false
        tvoc temperature humidity eco2).alerts =
      (check_thresholds_and_alert room th last0 aqi now true
        tvoc temperature humidity eco2).alerts ∧
    (check_thresholds_and_alert room th last0 aqi now false
        tvoc temperature humidity eco2).last_alert_time =
      (check_thresholds_and_alert room th last0 aqi now true
        tvoc temperature humidity eco2).last_alert_time ∧
    (check_thresholds_and_alert room th last0 aqi now false
        tvoc temperature humidity eco2).notification =
      (check_thresholds_and_alert room th last0 aqi now true
        tvoc temperature humidity eco2).notification ∧
    (check_thresholds_and_alert room th last0 aqi now false
        tvoc temperature humidity eco2).sendAttempts =
      (check_thresholds_and_alert room th last0 aqi now true
        tvoc temperature humidity eco2).sendAttempts ∧
    (check_thresholds_and_alert room th last0 aqi now false
        tvoc temperature humidity eco2).logged =
      (check_thresholds_and_alert room th last0 aqi now true
        tvoc temperature humidity eco2).logged ∧
    (check_thresholds_and_alert room th last0 aqi now false
        tvoc temperature humidity eco2).sendAttempts ≤ 1 ∧
    (check_thresholds_and_alert room th last0 aqi now false
        tvoc temperature humidity eco2).sendLog =
      (if (check_thresholds_and_alert room th last0 aqi now false
          tvoc temperature humidity eco2).should_send_alert then
        ["Telegram error for " ++ room]
      else []) ∧
    (on_message s rm data now2 false).1 = (on_message s rm data now2 true).1 := by
  refine ⟨rfl, rfl, rfl, rfl, rfl, ?_, ?_, ?_⟩
  · rw [check_sendAttempts_shape]
    split <;> norm_num
  · rw [check_sendLog_shape]
    simp [send_telegram_alert]
  · cases h : decodeReading data now2 <;> cases rm <;>
      simp only [on_message, h] <;> rfl

/-- C9: per-room frame isolation of the ingestion pipeline. Processing a
message for one room leaves the entire state of the other room — its
current-data record, its threshold set, and its cooldown dict — unchanged,
for every payload (including undecodable ones). -/
theorem ingestion_preserves_other_room (s : ServerState) (data : Payload)
    (now : Nat) (d : Bool) :
    (on_message s Room.bedroom data now d).1.workingroom = s.workingroom ∧
    (on_message s Room.workingroom data now d).1.bedroom = s.bedroom := by
  cases h : decodeReading data now <;> simp [on_message, h]

/-- C10: every alert in the list returned by an evaluation carries severity
"warning" or "danger". The guarded per-metric alerts only materialize when
the classification produced a message, which happens only in warning/danger
tiers, and the unconditional humidity_abnormal entry is a literal
"warning"; the severities "success" and "info" belong to messageless tiers
and never reach the list. -/
theorem broadcast_alerts_warning_or_danger (room : String) (th : Thresholds)
    (last0 : List (String × Nat)) (aqi : Int) (now : Nat) (d : Bool)
    (tvoc temperature humidity eco2 : ℚ) (a : Alert)
    (ha : a ∈ (check_thresholds_and_alert room th last0 aqi now d
        tvoc temperature humidity eco2).alerts) :
    a.severity = "warning" ∨ a.severity = "danger" := by
  have hm : a ∈ (metricBlocks th last0 now tvoc temperature humidity eco2).alerts := ha
  unfold metricBlocks at hm
  simp only [mem_ite_nil, List.mem_append, List.mem_singleton,
    List.mem_cons, List.not_mem_nil, or_false] at hm
  rcases hm with ((((⟨hc, rfl⟩ | ⟨hc, rfl⟩) | ⟨hc, rfl⟩) | rfl) | ⟨hc, rfl⟩)
  · rw [Bool.and_eq_true] at hc
    exact (classifyTvoc_severity th tvoc hc.1).imp id id
  · rw [Bool.and_eq_true] at hc
    exact (classifyTemp_severity th temperature hc.1).imp id id
  · rw [Bool.and_eq_true] at hc
    exact (classifyHumidity_severity th humidity hc.1).imp id id
  · exact Or.inl rfl
  · rw [Bool.and_eq_true] at hc
    exact (classifyEco2_severity th eco2 hc.1).imp id id

/-- C10, witness: the humidity_abnormal alert of a concrete evaluation is a
member of the returned list and has severity "warning". -/
theorem broadcast_alerts_warning_or_danger_witness :
    ({ type := "humidity_abnormal", message := "Abnormal humidity: 50%", severity := "warning", level := none } : Alert) ∈
      (check_thresholds_and_alert "bedroom" DEFAULT_THRESHOLDS [] 1 0 true
        0 25 50 500).alerts ∧
    (({ type := "humidity_abnormal", message := "Abnormal humidity: 50%", severity := "warning", level := none } : Alert).severity = "warning" ∨
      ({ type := "humidity_abnormal", message := "Abnormal humidity: 50%", severity := "warning", level := none } : Alert).severity = "danger") :=
  ⟨by decide, broadcast_alerts_warning_or_danger "bedroom" DEFAULT_THRESHOLDS
    [] 1 0 true 0 25 50 500 _ (by decide)⟩

end AirSense
